import Mathlib

/-
Verification of the VarScanner repository: a FastAPI service that accepts a
batch of genomic variants and returns each one annotated from a static
lookup table.  The repository contains two progressively-elaborated
versions of the service:
  * src/main.py          — minimal version (key derivation + echo), here `V0`
  * src/src/main.py      — elaborated version with the stub annotation
                           store lookup, here `V1`
Both versions share the input data model and the key-derivation function,
which are defined once at top level.
-/

/-- Input model for a single genomic variant (class VariantIn, identical in
src/main.py and src/src/main.py): chromosome, position, reference allele,
alternate allele.  Python `int` is unbounded, so `pos` is `Int`. -/
structure VariantIn where
  chrom : String
  pos : Int
  ref : String
  alt : String
deriving DecidableEq, Repr

/-- Request model (class PredictRequest, identical in both versions):
genome build identifier plus an ordered list of variants. -/
structure PredictRequest where
  genome_build : String
  variants : List VariantIn
deriving DecidableEq, Repr

/-- Key derivation (function variant_key, identical in both versions):
`f"{v.chrom}:{str(v.pos)}:{v.ref}>{v.alt}"`. -/
def variant_key (v : VariantIn) : String :=
  let c := v.chrom
  let p := v.pos
  let r := v.ref
  let a := v.alt
  s!"{c}:{p}:{r}>{a}"

namespace V0

/-- Output model of the minimal version (class VariantResult in
src/main.py): the derived key string and an echo of the input variant. -/
structure VariantResult where
  variant : String
  echo : VariantIn
deriving DecidableEq, Repr

/-- Response model of the minimal version (class PredictResponse in
src/main.py). -/
structure PredictResponse where
  genome_build : String
  results : List VariantResult
deriving DecidableEq, Repr

/-- The /predict handler of src/main.py: for each variant, build a
VariantResult from its key and the variant itself, preserving order,
and echo the genome build back. -/
def predict (req : PredictRequest) : PredictResponse :=
  { genome_build := req.genome_build
    results := req.variants.map (fun v => { variant := variant_key v, echo := v }) }

end V0

namespace V1

/-- One record of the stub store STUB_ANNOT of src/src/main.py: a JSON
object in which each of the five annotation keys may be present or absent.
The outer `Option` models presence of the key in the JSON object (`none` =
key absent, so that Python `annot["gene"]` raises KeyError); the inner
`Option` models a JSON null value.  The code only copies `gnomad_af`
values, never computes with them, so floats are embedded as `Rat`. -/
structure StoredAnnot where
  gene : Option (Option String)
  consequence : Option (Option String)
  gnomad_af : Option (Option Rat)
  rsid : Option (Option String)
  clinvar : Option (Option String)
deriving DecidableEq, Repr

/-- The stub store STUB_ANNOT: a JSON object mapping variant-key strings to
records.  Its contents are loaded from ../data/stubs/annot.json, which is
external data, so the store is a parameter of the embedded handler. -/
def Store : Type := List (String × StoredAnnot)

/-- The default record used by `STUB_ANNOT.get(key, {...})` on a lookup
miss: all five keys present, each mapped to null. -/
def defaultAnnot : StoredAnnot :=
  { gene := some none, consequence := some none, gnomad_af := some none,
    rsid := some none, clinvar := some none }

/-- Output model of the elaborated version (class VariantResult in
src/src/main.py): key, echo, and the five nullable annotation fields. -/
structure VariantResult where
  variant : String
  echo : VariantIn
  gene : Option String
  consequence : Option String
  gnomad_af : Option Rat
  rsid : Option String
  clinvar : Option String
deriving DecidableEq, Repr

/-- Response model of the elaborated version (class PredictResponse in
src/src/main.py). -/
structure PredictResponse where
  genome_build : String
  results : List VariantResult
deriving DecidableEq, Repr

/-- The per-variant body of the /predict loop in src/src/main.py (the
Annotation Resolver): derive the key, fetch the record with
`STUB_ANNOT.get(key, default)`, then read the five keys with
`annot["gene"]` etc.  Reading an absent key raises KeyError, embedded as
`none`. -/
def resolveVariant (store : List (String × StoredAnnot)) (v : VariantIn) :
    Option VariantResult :=
  let key := variant_key v
  let annot := (store.lookup key).getD defaultAnnot
  match annot.gene, annot.consequence, annot.gnomad_af, annot.rsid, annot.clinvar with
  | some g, some c, some f, some r, some cl =>
      some { variant := key, echo := v, gene := g, consequence := c,
             gnomad_af := f, rsid := r, clinvar := cl }
  | _, _, _, _, _ => none

/-- The accumulation loop of /predict in src/src/main.py: resolve each
variant in order; a KeyError anywhere aborts the whole request. -/
def resolveAll (store : List (String × StoredAnnot)) :
    List VariantIn → Option (List VariantResult)
  | [] => some []
  | v :: vs =>
    match resolveVariant store v with
    | none => none
    | some res =>
      match resolveAll store vs with
      | none => none
      | some rest => some (res :: rest)

/-- The /predict handler of src/src/main.py: resolve every variant against
the store and wrap the results with the echoed genome build.  `none`
models an uncaught KeyError escaping the handler. -/
def predict (store : List (String × StoredAnnot)) (req : PredictRequest) :
    Option PredictResponse :=
  (resolveAll store req.variants).map
    (fun rs => { genome_build := req.genome_build, results := rs })

/-- A stored record is complete when all five annotation keys are present
in the JSON object (their values may still be null). -/
def StoredAnnot.complete (a : StoredAnnot) : Bool :=
  a.gene.isSome && a.consequence.isSome && a.gnomad_af.isSome &&
    a.rsid.isSome && a.clinvar.isSome

/-- A store is complete when every stored record is complete. -/
def storeComplete (store : List (String × StoredAnnot)) : Bool :=
  store.all (fun kv => kv.2.complete)

/-- The five annotation fields of a result, without the key and the echo:
used to compare how two variants sharing one key are annotated. -/
def annotFields (res : VariantResult) :
    Option String × Option String × Option Rat × Option String × Option String :=
  (res.gene, res.consequence, res.gnomad_af, res.rsid, res.clinvar)

end V1

/-- Concrete variant used in closed instance checks: the worked example of
the spec, chrom "1", pos 12345, ref "A", alt "T". -/
def exVariant : VariantIn := { chrom := "1", pos := 12345, ref := "A", alt := "T" }

/-- The spec's stored record for the worked example. -/
def exRecord : V1.StoredAnnot :=
  { gene := some (some "BRCA1"), consequence := some (some "missense"),
    gnomad_af := some (some (mkRat 1 1000)), rsid := some (some "rs123"),
    clinvar := some (some "Pathogenic") }

/-- A one-entry store holding the worked example's record under its key. -/
def exStore : List (String × V1.StoredAnnot) := [("1:12345:A>T", exRecord)]

/-- A concrete request carrying the worked example's variant. -/
def exReq : PredictRequest := { genome_build := "GRCh38", variants := [exVariant] }

/-- A stored record whose "gene" key is absent from the JSON object (the
other four keys are present with null values). -/
def incompleteRecord : V1.StoredAnnot :=
  { gene := none, consequence := some none, gnomad_af := some none,
    rsid := some none, clinvar := some none }

/-- Two structurally distinct variants whose derived keys coincide: the ':'
inside `ref` of the first is indistinguishable from the field separators. -/
def collideA : VariantIn := { chrom := "1", pos := 2, ref := "3:A", alt := "T" }

/-- See `collideA`: same derived key "1:2:3:A>T", different fields. -/
def collideB : VariantIn := { chrom := "1:2", pos := 3, ref := "A", alt := "T" }

/-
Helper lemmas.
-/

lemma toString_str (s : String) : toString s = s := rfl

namespace V1

lemma lookup_complete {store : List (String × StoredAnnot)} {k : String}
    {a : StoredAnnot} (h : storeComplete store = true)
    (hl : store.lookup k = some a) : a.complete = true := by
  induction store with
  | nil => simp [List.lookup] at hl
  | cons kv rest ih =>
    obtain ⟨k1, a1⟩ := kv
    rw [storeComplete, List.all_cons, Bool.and_eq_true] at h
    rw [List.lookup] at hl
    cases hk : (k == k1) with
    | true =>
      rw [hk] at hl
      cases hl
      exact h.1
    | false =>
      rw [hk] at hl
      exact ih h.2 hl

lemma getD_complete {store : List (String × StoredAnnot)} (k : String)
    (h : storeComplete store = true) :
    ((store.lookup k).getD defaultAnnot).complete = true := by
  cases hl : store.lookup k with
  | none => rfl
  | some a =>
    simp only [Option.getD_some]
    exact lookup_complete h hl

lemma resolveVariant_of_complete {a : StoredAnnot}
    (store : List (String × StoredAnnot)) (v : VariantIn)
    (ha : (store.lookup (variant_key v)).getD defaultAnnot = a)
    (hc : a.complete = true) :
    resolveVariant store v =
      some { variant := variant_key v, echo := v, gene := a.gene.getD none,
             consequence := a.consequence.getD none,
             gnomad_af := a.gnomad_af.getD none, rsid := a.rsid.getD none,
             clinvar := a.clinvar.getD none } := by
  obtain ⟨g, c, f, r, cl⟩ := a
  simp only [StoredAnnot.complete, Bool.and_eq_true, Option.isSome_iff_exists] at hc
  obtain ⟨⟨⟨⟨⟨g', hg⟩, ⟨c', hcq⟩⟩, ⟨f', hf⟩⟩, ⟨r', hr⟩⟩, ⟨cl', hcl⟩⟩ := hc
  subst hg hcq hf hr hcl
  simp [resolveVariant, ha]

lemma resolveVariant_isSome (store : List (String × StoredAnnot))
    (v : VariantIn) (h : storeComplete store = true) :
    (resolveVariant store v).isSome = true := by
  rw [resolveVariant_of_complete store v rfl (getD_complete (variant_key v) h)]
  rfl

lemma resolveVariant_echo {store : List (String × StoredAnnot)}
    {v : VariantIn} {res : VariantResult}
    (h : resolveVariant store v = some res) :
    res.echo = v ∧ res.variant = variant_key v := by
  rw [resolveVariant] at h
  split at h
  · cases h; exact ⟨rfl, rfl⟩
  · cases h

lemma resolveAll_length {store : List (String × StoredAnnot)}
    {l : List VariantIn} {rs : List VariantResult}
    (h : resolveAll store l = some rs) : rs.length = l.length := by
  induction l generalizing rs with
  | nil => cases h; rfl
  | cons v vs ih =>
    rw [resolveAll] at h
    split at h
    · cases h
    · split at h
      · cases h
      · cases h
        simp [ih (by assumption)]

lemma resolveAll_get {store : List (String × StoredAnnot)}
    {l : List VariantIn} {rs : List VariantResult}
    (h : resolveAll store l = some rs) (i : Nat) (hi : i < l.length)
    (hi2 : i < rs.length) :
    resolveVariant store (l.get ⟨i, hi⟩) = some (rs.get ⟨i, hi2⟩) := by
  induction l generalizing rs i with
  | nil => exact absurd hi (by simp)
  | cons v vs ih =>
    rw [resolveAll] at h
    split at h
    · cases h
    · split at h
      · cases h
      · cases h
        cases i with
        | zero => assumption
        | succ n => exact ih (by assumption) n (by simpa using hi) (by simpa using hi2)

lemma resolveAll_map_echo {store : List (String × StoredAnnot)}
    {l : List VariantIn} {rs : List VariantResult}
    (h : resolveAll store l = some rs) :
    rs.map VariantResult.echo = l := by
  induction l generalizing rs with
  | nil => cases h; rfl
  | cons v vs ih =>
    rw [resolveAll] at h
    split at h
    · cases h
    · split at h
      · cases h
      · cases h
        have he := resolveVariant_echo (by assumption :
          resolveVariant store v = some _)
        simp [ih (by assumption), he.1]

lemma resolveAll_isSome (store : List (String × StoredAnnot))
    (l : List VariantIn) (h : storeComplete store = true) :
    (resolveAll store l).isSome = true := by
  induction l with
  | nil => rfl
  | cons v vs ih =>
    rw [resolveAll]
    have h1 := resolveVariant_isSome store v h
    cases hv : resolveVariant store v with
    | none => rw [hv] at h1; cases h1
    | some res =>
      cases hvs : resolveAll store vs with
      | none => rw [hvs] at ih; cases ih
      | some rest => rfl

lemma predict_some {store : List (String × StoredAnnot)}
    {req : PredictRequest} {resp : PredictResponse}
    (h : predict store req = some resp) :
    resp.genome_build = req.genome_build ∧
      resolveAll store req.variants = some resp.results := by
  rw [predict] at h
  cases hr : resolveAll store req.variants with
  | none => rw [hr] at h; cases h
  | some rs =>
    rw [hr] at h
    cases h
    exact ⟨rfl, rfl⟩

end V1
-- appended experimentally
/-- Claim C1: for every variant, variant_key returns exactly the string
"{chrom}:{pos}:{ref}>{alt}": the four fields joined with ':' separators and
'>' between ref and alt, purely and deterministically. -/
theorem C1_variant_key_format (v : VariantIn) :
    variant_key v = v.chrom ++ ":" ++ toString v.pos ++ ":" ++ v.ref ++ ">" ++ v.alt := by
  simp [variant_key, String.append_assoc, toString_str, String.append_empty,
    String.empty_append]

/-- Claim C10: variant_key is not injective: collideA and collideB differ in
their fields yet derive the same key, and against every store the two
receive identical annotations (equal annotFields). -/
theorem C10_key_not_injective :
    variant_key collideA = variant_key collideB ∧ collideA ≠ collideB ∧
      ∀ store : List (String × V1.StoredAnnot),
        Option.map V1.annotFields (V1.resolveVariant store collideA) =
          Option.map V1.annotFields (V1.resolveVariant store collideB) := by
  have hk : variant_key collideA = variant_key collideB := by decide
  refine ⟨hk, by decide, fun store => ?_⟩
  rw [V1.resolveVariant, V1.resolveVariant, hk]
  rcases ((store.lookup (variant_key collideB)).getD V1.defaultAnnot) with ⟨g, c, f, r, cl⟩
  cases g <;> cases c <;> cases f <;> cases r <;> cases cl <;> rfl

/-- Claim C5 (counterexample): with a store whose record for the key lacks
the "gene" key, predict on a request hitting that record raises KeyError
(embedded as none), contradicting the claim that a hit on a record lacking
one of the five fields completes without error. -/
theorem C5_counterexample :
    V1.predict [("1:12345:A>T", incompleteRecord)] exReq = none := by
  decide
/-- Claim C2: for every request and every complete store (every stored
record carries the five keys, as the spec's external-interface contract
requires of the stub file), predict returns a response with exactly one
result per input variant, in order, each echoing its variant — this also
covers the empty list.  The minimal version of src/main.py satisfies the
same correspondence unconditionally. -/
theorem C2_one_result_per_variant (store : List (String × V1.StoredAnnot))
    (req : PredictRequest) (h : V1.storeComplete store = true) :
    (∃ resp, V1.predict store req = some resp ∧
      resp.results.length = req.variants.length ∧
      resp.results.map V1.VariantResult.echo = req.variants) ∧
    (V0.predict req).results.length = req.variants.length ∧
    (V0.predict req).results.map V0.VariantResult.echo = req.variants := by
  have hs := V1.resolveAll_isSome store req.variants h
  cases hr : V1.resolveAll store req.variants with
  | none => rw [hr] at hs; cases hs
  | some rs =>
    exact ⟨⟨{ genome_build := req.genome_build, results := rs },
      by rw [V1.predict, hr]; rfl,
      V1.resolveAll_length hr, V1.resolveAll_map_echo hr⟩,
      by simp [V0.predict], by simp [V0.predict, Function.comp_def]⟩

/-- Claim C2 witness: at the spec's worked example (a complete one-entry
store and a one-variant request) the correspondence holds. -/
theorem C2_one_result_per_variant_witness :
    (∃ resp, V1.predict exStore exReq = some resp ∧
      resp.results.length = exReq.variants.length ∧
      resp.results.map V1.VariantResult.echo = exReq.variants) ∧
    (V0.predict exReq).results.length = exReq.variants.length ∧
    (V0.predict exReq).results.map V0.VariantResult.echo = exReq.variants :=
  C2_one_result_per_variant exStore exReq (by decide)

/-- Claim C5 (amended): the per-variant resolution never raises and predict
never drops a variant provided every stored record contains all five
annotation keys (their values may be null); a hit on a record lacking one
of the five keys raises KeyError instead. -/
theorem C5_amended_no_raise (store : List (String × V1.StoredAnnot))
    (req : PredictRequest) (h : V1.storeComplete store = true) :
    (∀ v : VariantIn, (V1.resolveVariant store v).isSome = true) ∧
    ∃ resp, V1.predict store req = some resp ∧
      resp.results.length = req.variants.length := by
  refine ⟨fun v => V1.resolveVariant_isSome store v h, ?_⟩
  have hs := V1.resolveAll_isSome store req.variants h
  cases hr : V1.resolveAll store req.variants with
  | none => rw [hr] at hs; cases hs
  | some rs =>
    exact ⟨{ genome_build := req.genome_build, results := rs },
      by rw [V1.predict, hr]; rfl, V1.resolveAll_length hr⟩

/-- Claim C5 (amended) witness: a complete store whose record carries null
values still resolves every variant and drops nothing. -/
theorem C5_amended_no_raise_witness :
    (∀ v : VariantIn, (V1.resolveVariant [("1:12345:A>T", V1.defaultAnnot)] v).isSome = true) ∧
    ∃ resp, V1.predict [("1:12345:A>T", V1.defaultAnnot)] exReq = some resp ∧
      resp.results.length = exReq.variants.length :=
  C5_amended_no_raise [("1:12345:A>T", V1.defaultAnnot)] exReq (by decide)

/-- Claim C6: whenever predict returns a response, its genome_build equals
the request's, unchanged; the minimal version echoes it likewise.  No
validation of the string is performed anywhere. -/
theorem C6_genome_build_passthrough (store : List (String × V1.StoredAnnot))
    (req : PredictRequest) (resp : V1.PredictResponse)
    (h : V1.predict store req = some resp) :
    resp.genome_build = req.genome_build ∧
      (V0.predict req).genome_build = req.genome_build :=
  ⟨(V1.predict_some h).1, rfl⟩

/-- Claim C6 witness: a nonsense genome build string is echoed back
verbatim by both versions. -/
theorem C6_genome_build_passthrough_witness :
    (({ genome_build := "definitely-not-a-genome-build", results := [] } : V1.PredictResponse)).genome_build = ({ genome_build := "definitely-not-a-genome-build", variants := [] } : PredictRequest).genome_build ∧ (V0.predict ({ genome_build := "definitely-not-a-genome-build", variants := [] } : PredictRequest)).genome_build = ({ genome_build := "definitely-not-a-genome-build", variants := [] } : PredictRequest).genome_build :=
  C6_genome_build_passthrough [] { genome_build := "definitely-not-a-genome-build", variants := [] } { genome_build := "definitely-not-a-genome-build", results := [] } (by decide)

/-- Claim C7: predict is a pure function of the request and of the store's
lookup behaviour: two stores answering every lookup identically (in
particular, the same store twice) yield identical responses for the same
request; predict reads no other state. -/
theorem C7_deterministic (s1 s2 : List (String × V1.StoredAnnot))
    (req : PredictRequest) (h : ∀ k, s1.lookup k = s2.lookup k) :
    V1.predict s1 req = V1.predict s2 req := by
  have hres : ∀ v, V1.resolveVariant s1 v = V1.resolveVariant s2 v := by
    intro v
    rw [V1.resolveVariant, V1.resolveVariant, h (variant_key v)]
  have hall : ∀ l, V1.resolveAll s1 l = V1.resolveAll s2 l := by
    intro l
    induction l with
    | nil => rfl
    | cons v vs ih => rw [V1.resolveAll, V1.resolveAll, hres v, ih]
  rw [V1.predict, V1.predict, hall req.variants]

/-- Claim C7 witness: a store and a copy of it with a shadowed duplicate
entry answer every lookup identically, so predict coincides on them. -/
theorem C7_deterministic_witness :
    V1.predict [("1:12345:A>T", exRecord)] { genome_build := "GRCh38", variants := [exVariant, exVariant] } = V1.predict [("1:12345:A>T", exRecord), ("1:12345:A>T", V1.defaultAnnot)] { genome_build := "GRCh38", variants := [exVariant, exVariant] } :=
  C7_deterministic _ _ _ (by
    intro k
    cases hk : k == "1:12345:A>T" <;> simp [List.lookup, hk])
/-- Claim C3: whenever predict returns a response and the key of the i-th
variant is absent from the store, the i-th result is present (not dropped)
and carries the key, the echoed variant, and all five annotation fields
null; the miss itself raises nothing. -/
theorem C3_miss_all_null (store : List (String × V1.StoredAnnot))
    (req : PredictRequest) (resp : V1.PredictResponse) (i : Nat)
    (hp : V1.predict store req = some resp)
    (hi : i < req.variants.length) (hi2 : i < resp.results.length)
    (hm : store.lookup (variant_key (req.variants.get ⟨i, hi⟩)) = none) :
    resp.results.get ⟨i, hi2⟩ =
      { variant := variant_key (req.variants.get ⟨i, hi⟩),
        echo := req.variants.get ⟨i, hi⟩, gene := none, consequence := none,
        gnomad_af := none, rsid := none, clinvar := none } := by
  have hall := (V1.predict_some hp).2
  have hres := V1.resolveAll_get hall i hi hi2
  rw [V1.resolveVariant] at hres
  simp only [hm, Option.getD_none, V1.defaultAnnot] at hres
  exact (Option.some.inj hres).symm

/-- Claim C3 witness: against the empty store, the spec's worked example
variant yields the all-null result at index 0. -/
theorem C3_miss_all_null_witness :
    (({ genome_build := "GRCh38", results := [{ variant := "1:12345:A>T", echo := exVariant, gene := none, consequence := none, gnomad_af := none, rsid := none, clinvar := none }] } : V1.PredictResponse)).results.get ⟨0, by decide⟩ =
      { variant := variant_key (exReq.variants.get ⟨0, by decide⟩),
        echo := exReq.variants.get ⟨0, by decide⟩, gene := none,
        consequence := none, gnomad_af := none, rsid := none, clinvar := none } :=
  C3_miss_all_null [] exReq _ 0 (by decide) (by decide) (by decide) (by decide)

/-- Claim C4: whenever predict returns a response and the key of the i-th
variant hits a stored record whose five keys hold the values g, c, f, r,
cl, the i-th result carries exactly those five values, with the key and
the echoed variant. -/
theorem C4_hit_fields_match (store : List (String × V1.StoredAnnot))
    (req : PredictRequest) (resp : V1.PredictResponse) (i : Nat)
    (a : V1.StoredAnnot) (g c : Option String) (f : Option Rat)
    (r cl : Option String) (hp : V1.predict store req = some resp)
    (hi : i < req.variants.length) (hi2 : i < resp.results.length)
    (hl : store.lookup (variant_key (req.variants.get ⟨i, hi⟩)) = some a)
    (hg : a.gene = some g) (hc : a.consequence = some c)
    (hf : a.gnomad_af = some f) (hr : a.rsid = some r)
    (hcl : a.clinvar = some cl) :
    resp.results.get ⟨i, hi2⟩ =
      { variant := variant_key (req.variants.get ⟨i, hi⟩),
        echo := req.variants.get ⟨i, hi⟩, gene := g, consequence := c,
        gnomad_af := f, rsid := r, clinvar := cl } := by
  have hall := (V1.predict_some hp).2
  have hres := V1.resolveAll_get hall i hi hi2
  rw [V1.resolveVariant] at hres
  simp only [hl, Option.getD_some, hg, hc, hf, hr, hcl] at hres
  exact (Option.some.inj hres).symm

/-- Claim C4 witness: the spec's worked example — a store holding BRCA1 /
missense / 0.001 / rs123 / Pathogenic under the key — returns exactly that
record in the result at index 0. -/
theorem C4_hit_fields_match_witness :
    (({ genome_build := "GRCh38", results := [{ variant := "1:12345:A>T", echo := exVariant, gene := some "BRCA1", consequence := some "missense", gnomad_af := some (mkRat 1 1000), rsid := some "rs123", clinvar := some "Pathogenic" }] } : V1.PredictResponse)).results.get ⟨0, by decide⟩ =
      { variant := variant_key (exReq.variants.get ⟨0, by decide⟩),
        echo := exReq.variants.get ⟨0, by decide⟩, gene := some "BRCA1",
        consequence := some "missense", gnomad_af := some (mkRat 1 1000),
        rsid := some "rs123", clinvar := some "Pathogenic" } :=
  C4_hit_fields_match exStore exReq _ 0 exRecord (some "BRCA1")
    (some "missense") (some (mkRat 1 1000)) (some "rs123")
    (some "Pathogenic") (by decide) (by decide) (by decide) (by decide)
    (by decide) (by decide) (by decide) (by decide) (by decide)

/-- Claim C8: no deduplication — if the variants at indices i and j of a
request are equal field-by-field, the corresponding results of a returned
response are equal: repeated occurrences are resolved independently and
consistently, neither merged nor dropped. -/
theorem C8_no_dedup (store : List (String × V1.StoredAnnot))
    (req : PredictRequest) (resp : V1.PredictResponse) (i j : Nat)
    (hp : V1.predict store req = some resp)
    (hi : i < req.variants.length) (hj : j < req.variants.length)
    (hi2 : i < resp.results.length) (hj2 : j < resp.results.length)
    (heq : req.variants.get ⟨i, hi⟩ = req.variants.get ⟨j, hj⟩) :
    resp.results.get ⟨i, hi2⟩ = resp.results.get ⟨j, hj2⟩ := by
  have hall := (V1.predict_some hp).2
  have h1 := V1.resolveAll_get hall i hi hi2
  have h2 := V1.resolveAll_get hall j hj hj2
  rw [heq] at h1
  rw [h1] at h2
  exact Option.some.inj h2

/-- Claim C8 witness: a request repeating the worked example variant twice
against the empty store yields equal results at indices 0 and 1. -/
theorem C8_no_dedup_witness :
    (({ genome_build := "GRCh38", results := [{ variant := "1:12345:A>T", echo := exVariant, gene := none, consequence := none, gnomad_af := none, rsid := none, clinvar := none }, { variant := "1:12345:A>T", echo := exVariant, gene := none, consequence := none, gnomad_af := none, rsid := none, clinvar := none }] } : V1.PredictResponse)).results.get ⟨0, by decide⟩ =
      (({ genome_build := "GRCh38", results := [{ variant := "1:12345:A>T", echo := exVariant, gene := none, consequence := none, gnomad_af := none, rsid := none, clinvar := none }, { variant := "1:12345:A>T", echo := exVariant, gene := none, consequence := none, gnomad_af := none, rsid := none, clinvar := none }] } : V1.PredictResponse)).results.get ⟨1, by decide⟩ :=
  C8_no_dedup [] { genome_build := "GRCh38", variants := [exVariant, exVariant] } _ 0 1
    (by decide) (by decide) (by decide) (by decide) (by decide) (by decide)

/-- Claim C9: refinement between the two versions — whenever the elaborated
predict of src/src/main.py returns a response, it agrees with the minimal
predict of src/main.py on genome_build, on the number of results, and at
every index on the key string and the echoed variant; the elaborated
version only adds the five annotation fields. -/
theorem C9_refinement (store : List (String × V1.StoredAnnot))
    (req : PredictRequest) (resp : V1.PredictResponse)
    (hp : V1.predict store req = some resp) :
    resp.genome_build = (V0.predict req).genome_build ∧
    resp.results.length = (V0.predict req).results.length ∧
    ∀ (i : Nat) (hi : i < resp.results.length)
      (hi2 : i < (V0.predict req).results.length),
      (resp.results.get ⟨i, hi⟩).variant =
          ((V0.predict req).results.get ⟨i, hi2⟩).variant ∧
        (resp.results.get ⟨i, hi⟩).echo =
          ((V0.predict req).results.get ⟨i, hi2⟩).echo := by
  obtain ⟨hgb, hall⟩ := V1.predict_some hp
  have hlen := V1.resolveAll_length hall
  refine ⟨by rw [hgb]; rfl, by simp [V0.predict, hlen], ?_⟩
  intro i hi hi2
  have hiv : i < req.variants.length := by rw [← hlen]; exact hi
  have hres := V1.resolveAll_get hall i hiv hi
  have he := V1.resolveVariant_echo hres
  constructor
  · rw [he.2]
    simp [V0.predict]
  · rw [he.1]
    simp [V0.predict]

/-- Claim C9 witness: at the worked example (hit case) the elaborated
response agrees with the minimal version on build, count, key and echo. -/
theorem C9_refinement_witness :
    (({ genome_build := "GRCh38", results := [{ variant := "1:12345:A>T", echo := exVariant, gene := some "BRCA1", consequence := some "missense", gnomad_af := some (mkRat 1 1000), rsid := some "rs123", clinvar := some "Pathogenic" }] } : V1.PredictResponse)).genome_build = (V0.predict exReq).genome_build ∧
    (({ genome_build := "GRCh38", results := [{ variant := "1:12345:A>T", echo := exVariant, gene := some "BRCA1", consequence := some "missense", gnomad_af := some (mkRat 1 1000), rsid := some "rs123", clinvar := some "Pathogenic" }] } : V1.PredictResponse)).results.length = (V0.predict exReq).results.length ∧
    ∀ (i : Nat) (hi : i < (({ genome_build := "GRCh38", results := [{ variant := "1:12345:A>T", echo := exVariant, gene := some "BRCA1", consequence := some "missense", gnomad_af := some (mkRat 1 1000), rsid := some "rs123", clinvar := some "Pathogenic" }] } : V1.PredictResponse)).results.length)
      (hi2 : i < (V0.predict exReq).results.length),
      ((({ genome_build := "GRCh38", results := [{ variant := "1:12345:A>T", echo := exVariant, gene := some "BRCA1", consequence := some "missense", gnomad_af := some (mkRat 1 1000), rsid := some "rs123", clinvar := some "Pathogenic" }] } : V1.PredictResponse)).results.get ⟨i, hi⟩).variant = ((V0.predict exReq).results.get ⟨i, hi2⟩).variant ∧
        ((({ genome_build := "GRCh38", results := [{ variant := "1:12345:A>T", echo := exVariant, gene := some "BRCA1", consequence := some "missense", gnomad_af := some (mkRat 1 1000), rsid := some "rs123", clinvar := some "Pathogenic" }] } : V1.PredictResponse)).results.get ⟨i, hi⟩).echo = ((V0.predict exReq).results.get ⟨i, hi2⟩).echo :=
  C9_refinement exStore exReq _ (by decide)
